import Mathlib

/-! NUnit C++ sample fixture (`cppsample.cpp`).

A shallow embedding of `NUnitSamples::SimpleCPPSample`: the fixture object with
its two `int` fields, the setup procedure `Init` and the five test procedures
`Add`, `DivideByZero`, `Equals`, `IgnoredTest` and `ExpectAnException`.

Procedures are state transformers over the fixture that either return normally
or end in a thrown exception.  The environment also carries a ghost record of
the assertion calls evaluated so far, which lets us say which assertion of a
procedure was reached and which was not.  Integer division takes the target's
treatment of a zero divisor as a parameter, since the source leaves it open.
-/

namespace NUnitSamples

/-! ## Data model -/

/-- The fixture object: the two `int` fields of `SimpleCPPSample`. -/
structure SimpleCPPSample where
  fValue1 : Int
  fValue2 : Int
  deriving DecidableEq, Repr

/-- Reduction of a mathematical integer to the signed 32-bit range
`[-2^31, 2^31)`, the value of an `int` expression after wrap-around. -/
def wrap32 (x : Int) : Int :=
  (x + 2147483648) % 4294967296 - 2147483648

/-- Values handed to the assertion library, tagged with the type of the
argument at the call site.  A `double` literal is read as the exact rational
its decimal text denotes. -/
inductive Value where
  | int (v : Int)
  | long (v : Int)
  | char (c : Char)
  | double (q : Rat)
  deriving DecidableEq, Repr

/-- The exceptions a procedure of the fixture can end in. -/
inductive Exception where
  | AssertionException (message : String) (expected actual : Value)
  | DivideByZeroException
  | OverflowException
  | InvalidCastException
  deriving DecidableEq, Repr

/-- Ghost record of one evaluated assertion call: its arguments and whether the
assertion held. -/
structure AssertRecord where
  expected : Value
  actual : Value
  delta : Option Rat
  message : String
  passed : Bool
  deriving DecidableEq, Repr

/-- The environment a procedure runs in: the fixture object (`this`) and the
ghost record of assertion calls evaluated so far, oldest first. -/
structure Env where
  self : SimpleCPPSample
  asserts : List AssertRecord
  deriving DecidableEq, Repr

/-- How a procedure ends: normal return (`ok`) or an uncaught exception. -/
abbrev Outcome (α : Type) := Except Exception α

/-- A procedure of the fixture: from an environment to the way it ends and the
environment it leaves. -/
def TestM (α : Type) : Type := Env → Outcome α × Env

/-- Normal return of a value, environment untouched. -/
def TestM.ret {α : Type} (a : α) : TestM α := fun e => (Except.ok a, e)

/-- Sequencing of statements: the second statement runs only when the first one
returned normally; an exception ends the procedure at once (nothing in the
fixture catches). -/
def TestM.seq {α β : Type} (m : TestM α) (f : α → TestM β) : TestM β := fun e =>
  match m e with
  | (Except.ok a, e1) => f a e1
  | (Except.error x, e1) => (Except.error x, e1)

instance : Monad TestM where
  pure := TestM.ret
  bind := TestM.seq

/-- The statement `throw x`. -/
def throwEx {α : Type} (x : Exception) : TestM α := fun e => (Except.error x, e)

/-- Assignment to the field `fValue1`. -/
def setValue1 (v : Int) : TestM Unit := fun e =>
  (Except.ok (), { e with self := { e.self with fValue1 := v } })

/-- Assignment to the field `fValue2`. -/
def setValue2 (v : Int) : TestM Unit := fun e =>
  (Except.ok (), { e with self := { e.self with fValue2 := v } })

/-- Read of the field `fValue1`. -/
def getValue1 : TestM Int := fun e => (Except.ok e.self.fValue1, e)

/-- Read of the field `fValue2`. -/
def getValue2 : TestM Int := fun e => (Except.ok e.self.fValue2, e)

/-- The way a procedure ends when run from `e`. -/
def outcome {α : Type} (m : TestM α) (e : Env) : Outcome α := (m e).1

/-- The environment a procedure leaves when run from `e`. -/
def after {α : Type} (m : TestM α) (e : Env) : Env := (m e).2

/-! ## The assertion library and machine arithmetic -/

/-- Modelled from the spec: the external assertion library's common core, absent
from the sources.  An assertion that holds returns normally; one that does not
signals failure by an exception carrying the message and the two values.  The
call is entered in the ghost record either way. -/
def Assert.report (expected actual : Value) (delta : Option Rat) (message : String)
    (holds : Bool) : TestM Unit := fun e =>
  let e1 : Env :=
    { e with asserts := e.asserts ++ [⟨expected, actual, delta, message, holds⟩] }
  if holds then (Except.ok (), e1)
  else (Except.error (Exception.AssertionException message expected actual), e1)

/-- Modelled from the spec: `Assert::AreEqual(expected, actual, message)` of the
external assertion library, absent from the sources: the equality assertion
with a message. -/
def Assert.AreEqual (expected actual : Value) (message : String) : TestM Unit :=
  Assert.report expected actual none message (decide (expected = actual))

/-- Modelled from the spec: `Assert::AreEqual(expected, actual, delta, message)`
of the external assertion library, absent from the sources: the equality
assertion with a tolerance, which holds when the two values differ by at most
`delta`. -/
def Assert.AreEqualDelta (expected actual delta : Rat) (message : String) : TestM Unit :=
  Assert.report (Value.double expected) (Value.double actual) (some delta) message
    (decide (|expected - actual| ≤ delta))

/-- What the target does with an `int` division whose quotient the language
leaves undefined (a zero divisor, or the one quotient that does not fit).  The
source does not settle it: a target that checks the division traps (the managed
runtime raises its division fault), while a build that does not check, or that
drops a quotient nobody reads, carries on with some value. -/
inductive ZeroDivide where
  | traps
  | yields (v : Int)
  deriving DecidableEq, Repr

/-- The `int` division `a / b` on a target `z`.  Where the quotient is defined it
truncates towards zero.  Where it is not, the target decides: it raises the
fault that belongs to the case, or returns the value it carries on with. -/
def idiv (z : ZeroDivide) (a b : Int) : TestM Int :=
  if b = 0 then
    match z with
    | ZeroDivide.traps => throwEx Exception.DivideByZeroException
    | ZeroDivide.yields v => pure v
  else if a = -2147483648 ∧ b = -1 then
    match z with
    | ZeroDivide.traps => throwEx Exception.OverflowException
    | ZeroDivide.yields v => pure v
  else pure (Int.tdiv a b)

/-! ## The procedures of `SimpleCPPSample` -/

/-- `SimpleCPPSample::Init`. -/
def Init : TestM Unit := do
  setValue1 2
  setValue2 3

/-- `SimpleCPPSample::Add`. -/
def Add : TestM Unit := do
  let result : Int := wrap32 ((← getValue1) + (← getValue2))
  Assert.AreEqual (Value.int 6) (Value.int result) ""

/-- `SimpleCPPSample::DivideByZero`, on a target `z`.  The quotient is stored in a
local that is never read. -/
def DivideByZero (z : ZeroDivide) : TestM Unit := do
  let zero : Int := 0
  let _result ← idiv z 8 zero

/-- `SimpleCPPSample::Equals`. -/
def Equals : TestM Unit := do
  Assert.AreEqual (Value.int 12) (Value.int 12) "Integer"
  Assert.AreEqual (Value.long 12) (Value.long 12) "Long"
  Assert.AreEqual (Value.char 'a') (Value.char 'a') "Char"
  Assert.AreEqual (Value.int 12) (Value.int 13) "Expected Failure (Integer)"
  Assert.AreEqualDelta 12 (1199 / 100) 0 "Expected Failure (Double)"

/-- `SimpleCPPSample::IgnoredTest`. -/
def IgnoredTest : TestM Unit :=
  throwEx Exception.InvalidCastException

/-- `SimpleCPPSample::ExpectAnException`. -/
def ExpectAnException : TestM Unit :=
  throwEx Exception.InvalidCastException

/-! ## Running several procedures -/

/-- The procedures of the fixture, by name. -/
inductive Procedure where
  | Init
  | Add
  | DivideByZero
  | Equals
  | IgnoredTest
  | ExpectAnException
  deriving DecidableEq, Repr

/-- The body a procedure name stands for, on a target `z`. -/
def Procedure.body (z : ZeroDivide) : Procedure → TestM Unit
  | Procedure.Init => NUnitSamples.Init
  | Procedure.Add => NUnitSamples.Add
  | Procedure.DivideByZero => NUnitSamples.DivideByZero z
  | Procedure.Equals => NUnitSamples.Equals
  | Procedure.IgnoredTest => NUnitSamples.IgnoredTest
  | Procedure.ExpectAnException => NUnitSamples.ExpectAnException

/-- Modelled from the spec: the external test runner, absent from the sources,
as far as the fixture can observe it.  It invokes procedures one after another
on the same fixture object; what a procedure throws reaches the runner and does
not stop the procedures that follow. -/
def runAll (z : ZeroDivide) : List Procedure → Env → Env
  | [], e => e
  | p :: ps, e => runAll z ps (after (p.body z) e)

/-! ## Helper facts -/

theorem report_outcome (x a : Value) (d : Option Rat) (msg : String) (holds : Bool) (e : Env) :
    outcome (Assert.report x a d msg holds) e =
      if holds then Except.ok () else Except.error (Exception.AssertionException msg x a) := by
  cases holds <;> rfl

theorem report_after (x a : Value) (d : Option Rat) (msg : String) (holds : Bool) (e : Env) :
    after (Assert.report x a d msg holds) e =
      { e with asserts := e.asserts ++ [⟨x, a, d, msg, holds⟩] } := by
  cases holds <;> rfl

theorem Add_eq (e : Env) :
    Add e = Assert.report (Value.int 6) (Value.int (wrap32 (e.self.fValue1 + e.self.fValue2)))
      none "" (decide (Value.int 6 = Value.int (wrap32 (e.self.fValue1 + e.self.fValue2)))) e := by
  rfl

/-! ## The claims -/

/-- C1: from every prior state of the fixture, `Init` returns normally and leaves
`fValue1 = 2` and `fValue2 = 3` (and evaluates no assertion). -/
theorem Init_sets_operands (e : Env) :
    outcome Init e = Except.ok () ∧
    (after Init e).self.fValue1 = 2 ∧ (after Init e).self.fValue2 = 3 ∧
    (after Init e).asserts = e.asserts := by
  exact ⟨rfl, rfl, rfl, rfl⟩

/-- C2: from every prior state of the fixture, `Init` followed by `Add` ends in an
assertion failure with expected value 6 and actual value 5, the sum of 2 and 3;
in particular it does not pass. -/
theorem Init_then_Add_fails (e : Env) :
    outcome (do Init; Add) e =
      Except.error (Exception.AssertionException "" (Value.int 6) (Value.int 5)) ∧
    wrap32 (2 + 3) = 5 ∧
    ¬ (outcome (do Init; Add) e = Except.ok ()) := by
  refine ⟨rfl, rfl, ?_⟩
  intro h
  have h2 : outcome (do Init; Add) e =
      Except.error (Exception.AssertionException "" (Value.int 6) (Value.int 5)) := rfl
  rw [h2] at h
  cases h

/-- C3, as stated, fails: on the operands 2 and 3 the 32-bit sum is 5 and yet `Add`
does not pass, so "passes exactly when the sum is 5" is false; and `Add` does not
pass on the state produced by `Init`. -/
theorem Add_expected_five_fails :
    ¬ (outcome Add ⟨⟨2, 3⟩, []⟩ = Except.ok () ↔ wrap32 ((2 : Int) + 3) = 5) ∧
    ¬ (outcome Add (after Init ⟨⟨0, 0⟩, []⟩) = Except.ok ()) := by
  have h2 : outcome Add ⟨⟨2, 3⟩, []⟩ =
      Except.error (Exception.AssertionException "" (Value.int 6) (Value.int 5)) := rfl
  have h3 : outcome Add (after Init ⟨⟨0, 0⟩, []⟩) =
      Except.error (Exception.AssertionException "" (Value.int 6) (Value.int 5)) := rfl
  refine ⟨?_, ?_⟩
  · intro h
    have h1 : outcome Add ⟨⟨2, 3⟩, []⟩ = Except.ok () := h.mpr rfl
    rw [h2] at h1
    cases h1
  · intro h
    rw [h3] at h
    cases h

/-- C3, amended: `Add` asserts the 32-bit sum of the two operands against the
constant 6: for all operand values it passes exactly when that sum is 6, when it
does not pass it ends in the assertion failure carrying 6 and the sum, and on
the state produced by `Init` it fails. -/
theorem Add_passes_iff_sum_six (e : Env) :
    (outcome Add e = Except.ok () ↔ wrap32 (e.self.fValue1 + e.self.fValue2) = 6) ∧
    (outcome Add e = Except.ok () ∨
      outcome Add e = Except.error (Exception.AssertionException "" (Value.int 6)
        (Value.int (wrap32 (e.self.fValue1 + e.self.fValue2))))) ∧
    outcome Add (after Init e) =
      Except.error (Exception.AssertionException "" (Value.int 6) (Value.int 5)) := by
  have key : outcome Add e =
      if decide (Value.int 6 = Value.int (wrap32 (e.self.fValue1 + e.self.fValue2))) = true
      then Except.ok ()
      else Except.error (Exception.AssertionException "" (Value.int 6)
        (Value.int (wrap32 (e.self.fValue1 + e.self.fValue2)))) := by
    unfold outcome
    rw [Add_eq]
    exact report_outcome _ _ _ _ _ e
  refine ⟨?_, ?_, rfl⟩
  · rw [key]
    by_cases h : wrap32 (e.self.fValue1 + e.self.fValue2) = 6
    · simp [h]
    · have h2 : ¬ (6 = wrap32 (e.self.fValue1 + e.self.fValue2)) := fun h3 => h h3.symm
      simp [h, h2]
  · rw [key]
    by_cases h : Value.int 6 = Value.int (wrap32 (e.self.fValue1 + e.self.fValue2))
    · left; simp [h]
    · right; simp [h]

/-- C5: each equality assertion of `Equals`, on its own and from every state, has
its documented result: the `int`, `long` and `char` assertions on equal values
pass, the `int` assertion of 12 against 13 fails, and the assertion of 12.0
against 11.99 with tolerance 0.0 fails, the distance of the two exceeding the
tolerance. -/
theorem AreEqual_single_results (e : Env) :
    outcome (Assert.AreEqual (Value.int 12) (Value.int 12) "Integer") e = Except.ok () ∧
    outcome (Assert.AreEqual (Value.long 12) (Value.long 12) "Long") e = Except.ok () ∧
    outcome (Assert.AreEqual (Value.char 'a') (Value.char 'a') "Char") e = Except.ok () ∧
    outcome (Assert.AreEqual (Value.int 12) (Value.int 13) "Expected Failure (Integer)") e =
      Except.error (Exception.AssertionException "Expected Failure (Integer)"
        (Value.int 12) (Value.int 13)) ∧
    outcome (Assert.AreEqualDelta 12 (1199 / 100) 0 "Expected Failure (Double)") e =
      Except.error (Exception.AssertionException "Expected Failure (Double)"
        (Value.double 12) (Value.double (1199 / 100))) ∧
    (0 : Rat) < |(12 : Rat) - 1199 / 100| := by
  refine ⟨rfl, rfl, rfl, rfl, ?_, ?_⟩
  · have h : decide (|(12 : Rat) - 1199 / 100| ≤ 0) = false := by
      rw [decide_eq_false_iff_not]
      norm_num [abs_le]
    unfold Assert.AreEqualDelta
    rw [report_outcome, h]
    rfl
  · norm_num [abs_pos]

/-- C6: from every state of the fixture, `IgnoredTest` and `ExpectAnException` both
end in `InvalidCastException`: neither returns normally, neither ends in another
exception, and the two have the same outcome. -/
theorem IgnoredTest_ExpectAnException_throw (e : Env) :
    outcome IgnoredTest e = Except.error Exception.InvalidCastException ∧
    outcome ExpectAnException e = Except.error Exception.InvalidCastException ∧
    outcome IgnoredTest e = outcome ExpectAnException e ∧
    (∀ r : Outcome Unit, (r = outcome IgnoredTest e ∨ r = outcome ExpectAnException e) →
      r ≠ Except.ok () ∧
      ∀ x : Exception, r = Except.error x → x = Exception.InvalidCastException) := by
  refine ⟨rfl, rfl, rfl, ?_⟩
  intro r hr
  have hr2 : r = Except.error Exception.InvalidCastException := by
    rcases hr with h | h <;> exact h
  subst hr2
  refine ⟨?_, ?_⟩
  · intro h
    cases h
  · intro x hx
    cases hx
    rfl

/-- C7: no data flows between the procedures.  Whatever the prior state and whatever
procedures ran before, `Init` followed by any one procedure has the same outcome;
and the outcomes of `DivideByZero`, `Equals`, `IgnoredTest` and `ExpectAnException`
are the same from any two states, whatever the operands hold.  This holds on
every target, whatever it does with the division by zero. -/
theorem outcomes_independent_of_history (z : ZeroDivide) (e1 e2 : Env)
    (h1 h2 : List Procedure) :
    (∀ t : Procedure,
      outcome (do Init; t.body z) (runAll z h1 e1) =
        outcome (do Init; t.body z) (runAll z h2 e2)) ∧
    outcome (DivideByZero z) e1 = outcome (DivideByZero z) e2 ∧
    outcome Equals e1 = outcome Equals e2 ∧
    outcome IgnoredTest e1 = outcome IgnoredTest e2 ∧
    outcome ExpectAnException e1 = outcome ExpectAnException e2 := by
  refine ⟨?_, ?_, rfl, rfl, rfl⟩
  · intro t
    generalize runAll z h1 e1 = a
    generalize runAll z h2 e2 = b
    cases z <;> cases t <;> rfl
  · cases z <;> rfl

/-- C8: from every state of the fixture, `Equals` ends in the assertion failure of its
fourth assertion, with the message "Expected Failure (Integer)".  The assertions
it evaluated are exactly the first four, in order: three that passed and the
fourth that failed; the fifth, the one with a tolerance, was not evaluated and
its failure is not the one reported. -/
theorem Equals_stops_at_fourth_assertion (e : Env) :
    outcome Equals e =
      Except.error (Exception.AssertionException "Expected Failure (Integer)"
        (Value.int 12) (Value.int 13)) ∧
    (after Equals e).asserts = e.asserts ++
      [⟨Value.int 12, Value.int 12, none, "Integer", true⟩,
       ⟨Value.long 12, Value.long 12, none, "Long", true⟩,
       ⟨Value.char 'a', Value.char 'a', none, "Char", true⟩,
       ⟨Value.int 12, Value.int 13, none, "Expected Failure (Integer)", false⟩] ∧
    ¬ (outcome Equals e =
      Except.error (Exception.AssertionException "Expected Failure (Double)"
        (Value.double 12) (Value.double (1199 / 100)))) := by
  have h1 : outcome Equals e =
      Except.error (Exception.AssertionException "Expected Failure (Integer)"
        (Value.int 12) (Value.int 13)) := rfl
  refine ⟨h1, ?_, ?_⟩
  · have h2 : (after Equals e).asserts = (((e.asserts ++
        [⟨Value.int 12, Value.int 12, none, "Integer", true⟩]) ++
        [⟨Value.long 12, Value.long 12, none, "Long", true⟩]) ++
        [⟨Value.char 'a', Value.char 'a', none, "Char", true⟩]) ++
        [⟨Value.int 12, Value.int 13, none, "Expected Failure (Integer)", false⟩] := rfl
    rw [h2]
    simp
  · rw [h1]
    intro h
    injection h with h3
    injection h3 with h4 h5 h6
    revert h4
    decide

/-- C9: only `Init` writes the operands.  Each of `Add`, `DivideByZero`, `Equals`,
`IgnoredTest` and `ExpectAnException`, whether it passes or throws, leaves
`fValue1` and `fValue2` as they were; `Init` run twice is `Init` run once; and the
operands 2 and 3 that `Init` establishes survive every one of the five.  This
holds on every target, whatever it does with the division by zero. -/
theorem only_Init_writes_operands (z : ZeroDivide) (e : Env) :
    ((after Add e).self = e.self ∧
     (after (DivideByZero z) e).self = e.self ∧
     (after Equals e).self = e.self ∧
     (after IgnoredTest e).self = e.self ∧
     (after ExpectAnException e).self = e.self) ∧
    (after Init (after Init e) = after Init e ∧
     outcome Init (after Init e) = outcome Init e) ∧
    ((after Add (after Init e)).self = ⟨2, 3⟩ ∧
     (after (DivideByZero z) (after Init e)).self = ⟨2, 3⟩ ∧
     (after Equals (after Init e)).self = ⟨2, 3⟩ ∧
     (after IgnoredTest (after Init e)).self = ⟨2, 3⟩ ∧
     (after ExpectAnException (after Init e)).self = ⟨2, 3⟩) := by
  have hAdd : ∀ a : Env, (after Add a).self = a.self := by
    intro a
    have h : after Add a = after (Assert.report (Value.int 6)
        (Value.int (wrap32 (a.self.fValue1 + a.self.fValue2))) none ""
        (decide (Value.int 6 = Value.int (wrap32 (a.self.fValue1 + a.self.fValue2))))) a := by
      unfold after
      rw [Add_eq]
    rw [h, report_after]
  have hDiv : ∀ a : Env, after (DivideByZero z) a = a := by
    intro a
    cases z <;> rfl
  refine ⟨⟨hAdd e, ?_, rfl, rfl, rfl⟩, ⟨rfl, rfl⟩, ⟨?_, ?_, rfl, rfl, rfl⟩⟩
  · rw [hDiv]
  · rw [hAdd]
    rfl
  · rw [hDiv]
    rfl

end NUnitSamples
